import Mathlib

/-!
Formal model of the autopip resolver (main.py), as a shallow embedding.

Python strings are modelled by Lean strings; the string methods used by the
source (str.strip, str.lower, str.split, regular-expression search for the
fixed pattern) are embedded as executable functions on the character list,
restricted to the ASCII fragment the program manipulates.  External effects
(the pip subprocess, the completion service, standard input) are supplied by
an environment of deterministic oracles; the observable behaviour of a run is
the list of emitted events (printed lines, subprocess invocations, service
queries) together with a termination flow (normal continuation, process exit,
or an uncaught exception).
-/

namespace Autopip

/-- Embedding of Python str.strip: remove leading and trailing whitespace. -/
def pyStrip (s : String) : String :=
  String.mk (((s.data.dropWhile Char.isWhitespace).reverse.dropWhile Char.isWhitespace).reverse)

/-- Embedding of Python str.lower, ASCII fragment. -/
def pyLower (s : String) : String :=
  String.mk (s.data.map Char.toLower)

/-- Embedding of name.split(".")[0]: the characters before the first dot. -/
def rootOf (s : String) : String :=
  String.mk (s.data.takeWhile (fun c => !(c == '.')))

/-- Character class of the regular expression fragment [\w\-], ASCII. -/
def isWordChar (c : Char) : Bool :=
  c.isAlphanum || c == '_' || c == '-'

/-- The literal part of the pattern "pip install ([\w\-]+)". -/
def pipCmdChars : List Char :=
  "pip install ".data

/-- Try to match the pattern at the current position: the literal text
followed by a nonempty maximal run of word characters (greedy capture). -/
def matchCmdAt (cs : List Char) : Option String :=
  if List.isPrefixOf pipCmdChars cs then
    let w := (cs.drop pipCmdChars.length).takeWhile isWordChar
    if w.isEmpty then none else some (String.mk w)
  else none

/-- Leftmost-match scan of re.search for the fixed pattern. -/
def searchCmd : List Char → Option String
  | [] => none
  | c :: rest =>
    match matchCmdAt (c :: rest) with
    | some w => some w
    | none => searchCmd rest

/-- Embedding of re.search(r"pip install ([\w\-]+)", s): the captured group
of the leftmost match, if any. -/
def extractPkg (s : String) : Option String :=
  searchCmd s.data

/-- Abstract syntax of the statements extract_imports inspects.  Following
the CPython ast module: a from-import statement carries the textual module
part after the leading dots (none when absent, as in from . import X) and
the number of leading dots as its level; the level field is what records
relativeness. -/
inductive PyStmt
  | imp (names : List String)
  | importFrom (mod : Option String) (level : Nat)
  | other
deriving DecidableEq, Repr

/-- Embedding of extract_imports: for each plain import statement add the
root of every alias name; for a from-import add the root of the module part
when that part is present and nonempty (Python truthiness of node.module);
the level field is never consulted.  The Python set is modelled as a list
read up to membership. -/
def extract_imports (stmts : List PyStmt) : List String :=
  stmts.flatMap fun st =>
    match st with
    | .imp names => names.map rootOf
    | .importFrom mod _ =>
      match mod with
      | some s => if s = "" then [] else [rootOf s]
      | none => []
    | .other => []

/-- Outcome of one subprocess.check_call invocation of pip. -/
inductive SubprocOutcome
  | ok
  | calledProcessError
  | fileNotFound
deriving DecidableEq, Repr

/-- Observable events of a run: printed status lines, pip invocations and
completion-service queries, in program order. -/
inductive Event
  | foundStdlib (m : String)
  | alreadyInstalled (m : String)
  | installingMsg (pkg m : String)
  | installedOk (pkg : String)
  | installFailed (pkg m : String)
  | pipMissingGuidance
  | aiQuery (m ctx : String)
  | aiRequestFailed
  | notRealRetry (pkg : String)
  | existsButFails (pkg : String)
  | aiSuggests (text : String)
  | promptShown (pkg m : String)
  | skippedAlternative (m : String)
  | noValidSuggestion (m : String)
deriving DecidableEq, Repr

/-- How a (partial) run terminates: fall through normally, terminate the
process via sys.exit with the given code, or abort with an uncaught
exception. -/
inductive Flow
  | normal
  | exited (code : Nat)
  | crashed
deriving DecidableEq, Repr

/-- Deterministic oracles for the external world: the stdlib module list,
the importability probe, the outcome of a real pip install per package, the
outcome of a dry-run pip install per package, the completion-service reply
per (module, context) query (none models a raised exception), and the line
read at the confirmation prompt. -/
structure Env where
  stdlib : List String
  findSpec : String → Bool
  pipInstall : String → SubprocOutcome
  pipDryRun : String → SubprocOutcome
  aiResponse : String → String → Option String
  userInput : String

/-- The COMMON_MAP table of known module-name to package-name mismatches. -/
def COMMON_MAP : List (String × String) :=
  [("bs4", "beautifulsoup4"),
   ("cv2", "opencv-python"),
   ("sklearn", "scikit-learn"),
   ("PIL", "pillow"),
   ("yaml", "pyyaml"),
   ("Crypto", "pycryptodome")]

/-- Embedding of resolve_package: exact lookup in COMMON_MAP, else the
module name itself. -/
def resolve_package (module : String) : String :=
  match COMMON_MAP.lookup module with
  | some p => p
  | none => module

/-- Embedding of try_install.  Success prints the installed line and returns
true; a FileNotFoundError from the subprocess prints the pip guidance and
calls sys.exit(1), modelled by the result none; every other exception prints
the failure line and returns false. -/
def try_install (env : Env) (package module : String) : List Event × Option Bool :=
  match env.pipInstall package with
  | .ok => ([Event.installedOk package], some true)
  | .fileNotFound => ([Event.pipMissingGuidance], none)
  | .calledProcessError => ([Event.installFailed package module], some false)

/-- Embedding of is_real_pypi_package over the outcome of the dry-run
subprocess call: only CalledProcessError is caught (yielding false); a
FileNotFoundError is not handled and propagates as an exception. -/
def is_real_pypi_package (r : SubprocOutcome) : Except SubprocOutcome Bool :=
  match r with
  | .ok => Except.ok true
  | .calledProcessError => Except.ok false
  | .fileNotFound => Except.error SubprocOutcome.fileNotFound

/-- The dry-run existence check as invoked from the decision loop. -/
def dryRunCheck (env : Env) (pkg : String) : Except SubprocOutcome Bool :=
  is_real_pypi_package (env.pipDryRun pkg)

/-- Embedding of ask_ai_for_package: one query to the completion service;
the reply content is stripped; a raised exception is caught, a warning is
printed and None is returned. -/
def ask_ai_for_package (env : Env) (module ctx : String) : List Event × Option String :=
  match env.aiResponse module ctx with
  | some t => ([Event.aiQuery module ctx], some (pyStrip t))
  | none => ([Event.aiQuery module ctx, Event.aiRequestFailed], none)

/-- Context string of the initial fallback query. -/
def ctxInitial : String :=
  "Suggest a valid PyPI package replacement."

/-- Context string of the invalid-suggestion retry query. -/
def ctxInvalid : String :=
  "Your last answer was invalid. Give only a valid PyPI package name."

/-- Context string of the exists-but-fails-to-install retry query. -/
def ctxExistsButFails (pkg : String) : String :=
  "The package " ++ pkg ++ " exists but fails to install. Suggest the modern supported replacement."

/-- The confirmation test at the prompt: input(...).strip().lower() compared
with "y" or with "Y" (the second comparison can never succeed after
lowering). -/
def promptAccepts (input : String) : Bool :=
  let choice := pyLower (pyStrip input)
  choice == "y" || choice == "Y"

/-- Lines 155-163 of the loop body: the final validation of the current
candidate, the suggestion print and the confirmation prompt, the consented
install, and the no-valid-name warning.  Receives the current candidate and
the current reply text (for the suggestion print). -/
def promptStage (env : Env) (module : String) (sugg aiText : Option String) :
    List Event × Flow :=
  match sugg with
  | none => ([Event.noValidSuggestion module], Flow.normal)
  | some q =>
    match dryRunCheck env q with
    | .error _ => ([], Flow.crashed)
    | .ok false => ([Event.noValidSuggestion module], Flow.normal)
    | .ok true =>
      let evts := [Event.aiSuggests (aiText.getD "None"), Event.promptShown q module]
      if promptAccepts env.userInput then
        let ti := try_install env q module
        match ti.2 with
        | none => (evts ++ ti.1, Flow.exited 1)
        | some _ => (evts ++ ti.1, Flow.normal)
      else
        (evts ++ [Event.skippedAlternative module], Flow.normal)

/-- Lines 144-163 of the loop body: validate the candidate and install it
at once; if that install fails, print the exists-but-fails warning, query
the service for a replacement and re-extract; then fall into the prompt
stage.  A missing or unvalidated candidate falls through silently. -/
def candidateStage (env : Env) (module : String) (sugg aiText : Option String) :
    List Event × Flow :=
  match sugg with
  | none => ([], Flow.normal)
  | some p =>
    match dryRunCheck env p with
    | .error _ => ([], Flow.crashed)
    | .ok false => ([], Flow.normal)
    | .ok true =>
      let ti := try_install env p module
      match ti.2 with
      | none => (ti.1, Flow.exited 1)
      | some true =>
        let pr := promptStage env module (some p) aiText
        (ti.1 ++ pr.1, pr.2)
      | some false =>
        let qr := ask_ai_for_package env module (ctxExistsButFails p)
        let sp2 := extractPkg (qr.2.getD "")
        let pr := promptStage env module sp2 qr.2
        (ti.1 ++ [Event.existsButFails p] ++ qr.1 ++ pr.1, pr.2)

/-- Lines 129-163 of the loop body: the initial fallback query, extraction
of the candidate, the invalid-suggestion retry (one extra query when the
extracted candidate is not a real package), then the candidate stage.  A
failed query or an empty reply falls through with no further message. -/
def fallbackStage (env : Env) (module : String) : List Event × Flow :=
  let qr := ask_ai_for_package env module ctxInitial
  match qr.2 with
  | none => (qr.1, Flow.normal)
  | some text =>
    match extractPkg text with
    | none =>
      let cs := candidateStage env module none (some text)
      (qr.1 ++ cs.1, cs.2)
    | some p =>
      match dryRunCheck env p with
      | .error _ => (qr.1, Flow.crashed)
      | .ok true =>
        let cs := candidateStage env module (some p) (some text)
        (qr.1 ++ cs.1, cs.2)
      | .ok false =>
        let qr2 := ask_ai_for_package env module ctxInvalid
        let sp1 := extractPkg (qr2.2.getD "")
        let cs := candidateStage env module sp1 qr2.2
        (qr.1 ++ [Event.notRealRetry p] ++ qr2.1 ++ cs.1, cs.2)

/-- One iteration of the loop in install_missing: the stdlib check,
the importability probe, the direct install attempt of the resolved package, and
on recoverable failure the fallback stages. -/
def processModule (env : Env) (module : String) : List Event × Flow :=
  if env.stdlib.contains module then
    ([Event.foundStdlib module], Flow.normal)
  else if env.findSpec module then
    ([Event.alreadyInstalled module], Flow.normal)
  else
    let package := resolve_package module
    let ti := try_install env package module
    match ti.2 with
    | none => (Event.installingMsg package module :: ti.1, Flow.exited 1)
    | some true => (Event.installingMsg package module :: ti.1, Flow.normal)
    | some false =>
      let fb := fallbackStage env module
      (Event.installingMsg package module :: (ti.1 ++ fb.1), fb.2)

/-- Embedding of install_missing over a list of import names: iterate the
per-module step, stopping only when a step exits the process or crashes. -/
def install_missing (env : Env) : List String → List Event × Flow
  | [] => ([], Flow.normal)
  | m :: rest =>
    let pm := processModule env m
    match pm.2 with
    | Flow.normal =>
      let tl := install_missing env rest
      (pm.1 ++ tl.1, tl.2)
    | fl => (pm.1, fl)

/-- Recogniser of completion-service query events. -/
def isAiQueryEvent : Event → Bool
  | .aiQuery _ _ => true
  | _ => false

/-- Number of completion-service queries in a trace. -/
def aiQueryCount (tr : List Event) : Nat :=
  (tr.filter isAiQueryEvent).length

/-- Whether a trace contains any completion-service query. -/
def hasAiQuery (tr : List Event) : Bool :=
  tr.any isAiQueryEvent

/-- Recogniser of real install attempts: each try_install call emits exactly
one of these events. -/
def isInstallAttemptEvent : Event → Bool
  | .installedOk _ => true
  | .installFailed _ _ => true
  | .pipMissingGuidance => true
  | _ => false

/-- Number of real install attempts in a trace. -/
def installAttempts (tr : List Event) : Nat :=
  (tr.filter isInstallAttemptEvent).length

/-- Recogniser of the terminating warning lines that name the module: the
skipped-alternative line and the no-valid-suggestion line. -/
def isTermWarnFor (m : String) : Event → Bool
  | .skippedAlternative m2 => m2 == m
  | .noValidSuggestion m2 => m2 == m
  | _ => false

/-- Number of terminating warning lines naming the module in a trace. -/
def termWarnCount (m : String) (tr : List Event) : Nat :=
  (tr.filter (isTermWarnFor m)).length

/-- Recogniser of successful install events. -/
def isInstallOkEvent : Event → Bool
  | .installedOk _ => true
  | _ => false

/-- Recogniser of confirmation-prompt events. -/
def isPromptEvent : Event → Bool
  | .promptShown _ _ => true
  | _ => false

/-- Environment for the C6 witness: os is in the stdlib list, numpy is
importable. -/
def envSkipW : Env :=
  { stdlib := ["os"]
    findSpec := fun m => m == "numpy"
    pipInstall := fun _ => SubprocOutcome.calledProcessError
    pipDryRun := fun _ => SubprocOutcome.calledProcessError
    aiResponse := fun _ _ => none
    userInput := "" }

/-- Environment for the C7 witness: the pip binary is absent. -/
def envFatalW : Env :=
  { stdlib := []
    findSpec := fun _ => false
    pipInstall := fun _ => SubprocOutcome.fileNotFound
    pipDryRun := fun _ => SubprocOutcome.fileNotFound
    aiResponse := fun _ _ => none
    userInput := "" }

/-- Environment for the C9 witness: a validated candidate with the answer
no at the prompt. -/
def envPromptW : Env :=
  { stdlib := []
    findSpec := fun _ => false
    pipInstall := fun _ => SubprocOutcome.calledProcessError
    pipDryRun := fun _ => SubprocOutcome.ok
    aiResponse := fun _ _ => none
    userInput := "no" }

/-- Environment for C1: the direct attempt fails, the initial reply names a
real package whose install succeeds, the user would answer no. -/
def envAutoInstall : Env :=
  { stdlib := []
    findSpec := fun _ => false
    pipInstall := fun p => if p = "altpkg" then SubprocOutcome.ok
      else SubprocOutcome.calledProcessError
    pipDryRun := fun p => if p = "altpkg" then SubprocOutcome.ok
      else SubprocOutcome.calledProcessError
    aiResponse := fun _ c => if c = ctxInitial then some "pip install altpkg" else none
    userInput := "n" }

/-- Environment for C1: the validated first candidate altpkg fails to
install, the exists-but-fails reply names newpkg which is real and installs,
the user answers yes. -/
def envPromptedRepl : Env :=
  { stdlib := []
    findSpec := fun _ => false
    pipInstall := fun p => if p = "newpkg" then SubprocOutcome.ok
      else SubprocOutcome.calledProcessError
    pipDryRun := fun p => if p = "altpkg" then SubprocOutcome.ok
      else if p = "newpkg" then SubprocOutcome.ok
      else SubprocOutcome.calledProcessError
    aiResponse := fun _ c =>
      if c = ctxInitial then some "pip install altpkg"
      else if c = ctxExistsButFails "altpkg" then some "pip install newpkg"
      else none
    userInput := "y" }

/-- Environment for C4: every install fails, the initial reply contains no
extractable pip-install pattern. -/
def envSilentFail : Env :=
  { stdlib := []
    findSpec := fun _ => false
    pipInstall := fun _ => SubprocOutcome.calledProcessError
    pipDryRun := fun _ => SubprocOutcome.calledProcessError
    aiResponse := fun _ c => if c = ctxInitial then some "no suggestion available" else none
    userInput := "" }

/-- Environment for the C4 witness: the decline path, in which the module
stays unresolved and exactly one terminating warning names it. -/
def envDeclineW : Env :=
  { stdlib := []
    findSpec := fun _ => false
    pipInstall := fun _ => SubprocOutcome.calledProcessError
    pipDryRun := fun p => if p = "pkgb" then SubprocOutcome.ok
      else if p = "pkgc" then SubprocOutcome.ok
      else SubprocOutcome.calledProcessError
    aiResponse := fun _ c =>
      if c = ctxInitial then some "pip install pkgb"
      else if c = ctxExistsButFails "pkgb" then some "pip install pkgc"
      else none
    userInput := "n" }

theorem extractPkg_empty : extractPkg "" = none := rfl

theorem aiQueryCount_nil : aiQueryCount [] = 0 := rfl

theorem aiQueryCount_append (a b : List Event) :
    aiQueryCount (a ++ b) = aiQueryCount a + aiQueryCount b := by
  simp [aiQueryCount, List.filter_append]

theorem aiQueryCount_cons (e : Event) (tr : List Event) :
    aiQueryCount (e :: tr) = (if isAiQueryEvent e then 1 else 0) + aiQueryCount tr := by
  by_cases h : isAiQueryEvent e <;> simp [aiQueryCount, List.filter_cons, h, Nat.add_comm]

theorem aiQueryCount_try_install (env : Env) (p m : String) :
    aiQueryCount (try_install env p m).1 = 0 := by
  cases h : env.pipInstall p <;>
    simp [try_install, h, aiQueryCount_cons, aiQueryCount_nil, isAiQueryEvent]

theorem aiQueryCount_ask (env : Env) (m c : String) :
    aiQueryCount (ask_ai_for_package env m c).1 = 1 := by
  cases h : env.aiResponse m c <;>
    simp [ask_ai_for_package, h, aiQueryCount_cons, aiQueryCount_nil, isAiQueryEvent]

theorem aiQueryCount_promptStage (env : Env) (m : String) (s t : Option String) :
    aiQueryCount (promptStage env m s t).1 = 0 := by
  cases s with
  | none => simp [promptStage, aiQueryCount_cons, aiQueryCount_nil, isAiQueryEvent]
  | some q =>
    cases h : env.pipDryRun q with
    | ok =>
      by_cases hp : promptAccepts env.userInput
      · cases h2 : (try_install env q m).2 <;>
          simp [promptStage, dryRunCheck, is_real_pypi_package, h, hp, h2,
            aiQueryCount_append, aiQueryCount_try_install, aiQueryCount_cons,
            aiQueryCount_nil, isAiQueryEvent]
      · simp [promptStage, dryRunCheck, is_real_pypi_package, h, hp,
          aiQueryCount_append, aiQueryCount_cons, aiQueryCount_nil, isAiQueryEvent]
    | calledProcessError =>
      simp [promptStage, dryRunCheck, is_real_pypi_package, h,
        aiQueryCount_cons, aiQueryCount_nil, isAiQueryEvent]
    | fileNotFound =>
      simp [promptStage, dryRunCheck, is_real_pypi_package, h, aiQueryCount_nil]

theorem aiQueryCount_candidateStage (env : Env) (m : String) (s t : Option String) :
    aiQueryCount (candidateStage env m s t).1 ≤ 1 := by
  cases s with
  | none => simp [candidateStage, aiQueryCount_nil]
  | some p =>
    cases h : env.pipDryRun p with
    | ok =>
      cases h2 : (try_install env p m).2 with
      | none =>
        simp [candidateStage, dryRunCheck, is_real_pypi_package, h, h2,
          aiQueryCount_try_install]
      | some b =>
        cases b <;>
          simp [candidateStage, dryRunCheck, is_real_pypi_package, h, h2,
            aiQueryCount_append, aiQueryCount_try_install, aiQueryCount_ask,
            aiQueryCount_promptStage, aiQueryCount_cons, aiQueryCount_nil, isAiQueryEvent]
    | calledProcessError =>
      simp [candidateStage, dryRunCheck, is_real_pypi_package, h, aiQueryCount_nil]
    | fileNotFound =>
      simp [candidateStage, dryRunCheck, is_real_pypi_package, h, aiQueryCount_nil]

theorem aiQueryCount_fallbackStage (env : Env) (m : String) :
    aiQueryCount (fallbackStage env m).1 ≤ 3 := by
  cases hq : env.aiResponse m ctxInitial with
  | none =>
    simp [fallbackStage, ask_ai_for_package, hq, aiQueryCount_cons, aiQueryCount_nil,
      isAiQueryEvent]
  | some t =>
    cases he : extractPkg (pyStrip t) with
    | none =>
      have hc := aiQueryCount_candidateStage env m none (some (pyStrip t))
      simp [fallbackStage, ask_ai_for_package, hq, he, aiQueryCount_append,
        aiQueryCount_cons, aiQueryCount_nil, isAiQueryEvent]
      omega
    | some p =>
      cases h : env.pipDryRun p with
      | ok =>
        have hc := aiQueryCount_candidateStage env m (some p) (some (pyStrip t))
        simp [fallbackStage, ask_ai_for_package, hq, he, dryRunCheck,
          is_real_pypi_package, h, aiQueryCount_append, aiQueryCount_cons,
          aiQueryCount_nil, isAiQueryEvent]
        omega
      | calledProcessError =>
        cases hq2 : env.aiResponse m ctxInvalid with
        | none =>
          simp [fallbackStage, ask_ai_for_package, hq, hq2, he, dryRunCheck,
            is_real_pypi_package, h, extractPkg_empty, candidateStage,
            aiQueryCount_append, aiQueryCount_cons, aiQueryCount_nil, isAiQueryEvent]
        | some t2 =>
          have hc := aiQueryCount_candidateStage env m (extractPkg (pyStrip t2))
            (some (pyStrip t2))
          simp [fallbackStage, ask_ai_for_package, hq, hq2, he, dryRunCheck,
            is_real_pypi_package, h, aiQueryCount_append, aiQueryCount_cons,
            aiQueryCount_nil, isAiQueryEvent]
          omega
      | fileNotFound =>
        simp [fallbackStage, ask_ai_for_package, hq, he, dryRunCheck,
          is_real_pypi_package, h, aiQueryCount_cons, aiQueryCount_nil, isAiQueryEvent]

/-- C2: for every environment and module, the per-module decision loop
issues at most three completion-service queries: the initial one, at most
one invalid-suggestion retry, and at most one exists-but-fails retry. -/
theorem ai_query_bound_per_module (env : Env) (m : String) :
    aiQueryCount (processModule env m).1 ≤ 3 := by
  by_cases hs : m ∈ env.stdlib
  · simp [processModule, hs, aiQueryCount_cons, aiQueryCount_nil, isAiQueryEvent]
  · by_cases hf : env.findSpec m
    · simp [processModule, hs, hf, aiQueryCount_cons, aiQueryCount_nil, isAiQueryEvent]
    · cases h2 : (try_install env (resolve_package m) m).2 with
      | none =>
        simp [processModule, hs, hf, h2, aiQueryCount_cons, aiQueryCount_try_install,
          isAiQueryEvent]
      | some b =>
        cases b with
        | true =>
          simp [processModule, hs, hf, h2, aiQueryCount_cons, aiQueryCount_try_install,
            isAiQueryEvent]
        | false =>
          have hc := aiQueryCount_fallbackStage env m
          simp [processModule, hs, hf, h2, aiQueryCount_cons, aiQueryCount_append,
            aiQueryCount_try_install, isAiQueryEvent]
          omega

theorem hasAiQuery_nil : hasAiQuery [] = false := rfl

theorem hasAiQuery_cons (e : Event) (tr : List Event) :
    hasAiQuery (e :: tr) = (isAiQueryEvent e || hasAiQuery tr) := by
  simp [hasAiQuery]

theorem hasAiQuery_append (a b : List Event) :
    hasAiQuery (a ++ b) = (hasAiQuery a || hasAiQuery b) := by
  simp [hasAiQuery, List.any_append]

theorem hasAiQuery_try_install (env : Env) (p m : String) :
    hasAiQuery (try_install env p m).1 = false := by
  cases h : env.pipInstall p <;> simp [try_install, h, hasAiQuery, isAiQueryEvent]

theorem hasAiQuery_fallbackStage (env : Env) (m : String) :
    hasAiQuery (fallbackStage env m).1 = true := by
  cases hq : env.aiResponse m ctxInitial with
  | none => simp [fallbackStage, ask_ai_for_package, hq, hasAiQuery, isAiQueryEvent]
  | some t =>
    cases he : extractPkg (pyStrip t) with
    | none =>
      simp [fallbackStage, ask_ai_for_package, hq, he, hasAiQuery, isAiQueryEvent]
    | some p =>
      cases h : env.pipDryRun p <;>
        simp [fallbackStage, ask_ai_for_package, hq, he, dryRunCheck,
          is_real_pypi_package, h, hasAiQuery, isAiQueryEvent]

/-- C3: the fallback resolver is queried for a module exactly when that
module reached the direct install attempt and the attempt failed
recoverably; it is never queried for a stdlib or an already importable
module. -/
theorem ai_fallback_iff_direct_failed (env : Env) (m : String) :
    hasAiQuery (processModule env m).1 = true ↔
      (m ∉ env.stdlib ∧ env.findSpec m = false ∧
        env.pipInstall (resolve_package m) = SubprocOutcome.calledProcessError) := by
  by_cases hs : m ∈ env.stdlib
  · simp [processModule, hs, hasAiQuery, isAiQueryEvent]
  · by_cases hf : env.findSpec m
    · simp [processModule, hs, hf, hasAiQuery, isAiQueryEvent]
    · cases h : env.pipInstall (resolve_package m) with
      | ok =>
        simp [processModule, hs, hf, try_install, h, hasAiQuery, isAiQueryEvent]
      | fileNotFound =>
        simp [processModule, hs, hf, try_install, h, hasAiQuery, isAiQueryEvent]
      | calledProcessError =>
        have hb := hasAiQuery_fallbackStage env m
        simp [processModule, hs, hf, try_install, h, hasAiQuery_cons,
          hasAiQuery_append, hasAiQuery_nil, hb, isAiQueryEvent]

/-- C5: resolve_package is a deterministic total function: a module present
in the static map resolves to the mapped package name, a module absent from
it resolves to itself; in particular cv2 resolves to opencv-python and never
to cv2. -/
theorem resolve_package_policy :
    (∀ m p, COMMON_MAP.lookup m = some p → resolve_package m = p) ∧
    (∀ m, COMMON_MAP.lookup m = none → resolve_package m = m) ∧
    resolve_package "cv2" = "opencv-python" ∧ resolve_package "cv2" ≠ "cv2" := by
  refine ⟨?_, ?_, by decide, by decide⟩
  · intro m p h; simp [resolve_package, h]
  · intro m h; simp [resolve_package, h]

/-- Witness for C5 at cv2 (present in the map) and numpy (absent). -/
theorem resolve_package_policy_w :
    (COMMON_MAP.lookup "cv2" = some "opencv-python" ∧
      resolve_package "cv2" = "opencv-python") ∧
    (COMMON_MAP.lookup "numpy" = none ∧ resolve_package "numpy" = "numpy") :=
  ⟨⟨by decide, resolve_package_policy.1 "cv2" "opencv-python" (by decide)⟩,
   ⟨by decide, resolve_package_policy.2.1 "numpy" (by decide)⟩⟩

/-- C6: a stdlib module is reported as stdlib, an importable module as
already installed, and neither triggers any install attempt. -/
theorem stdlib_and_installed_skip (env : Env) (m : String) :
    (m ∈ env.stdlib →
      processModule env m = ([Event.foundStdlib m], Flow.normal) ∧
      installAttempts (processModule env m).1 = 0) ∧
    (m ∉ env.stdlib → env.findSpec m = true →
      processModule env m = ([Event.alreadyInstalled m], Flow.normal) ∧
      installAttempts (processModule env m).1 = 0) := by
  constructor
  · intro hs
    refine ⟨by simp [processModule, hs], ?_⟩
    simp [processModule, hs, installAttempts, isInstallAttemptEvent]
  · intro hs hf
    refine ⟨by simp [processModule, hs, hf], ?_⟩
    simp [processModule, hs, hf, installAttempts, isInstallAttemptEvent]

/-- Witness for C6 on a concrete environment. -/
theorem stdlib_and_installed_skip_w :
    (processModule envSkipW "os" = ([Event.foundStdlib "os"], Flow.normal) ∧
      installAttempts (processModule envSkipW "os").1 = 0) ∧
    (processModule envSkipW "numpy" = ([Event.alreadyInstalled "numpy"], Flow.normal) ∧
      installAttempts (processModule envSkipW "numpy").1 = 0) :=
  ⟨(stdlib_and_installed_skip envSkipW "os").1 (by decide),
   (stdlib_and_installed_skip envSkipW "numpy").2 (by decide) (by decide)⟩

/-- C7: a FileNotFoundError from the pip subprocess is the only fatal
installer outcome: it prints the guidance lines and exits the process with
code 1 (also from inside the decision loop); every other failure is returned
to the caller as false after the single attempt, and success as true. -/
theorem installer_fatal_taxonomy :
    (∀ env p m, env.pipInstall p = SubprocOutcome.fileNotFound →
      try_install env p m = ([Event.pipMissingGuidance], none)) ∧
    (∀ env p m, env.pipInstall p = SubprocOutcome.calledProcessError →
      try_install env p m = ([Event.installFailed p m], some false)) ∧
    (∀ env p m, env.pipInstall p = SubprocOutcome.ok →
      try_install env p m = ([Event.installedOk p], some true)) ∧
    (∀ env p m, (try_install env p m).2 = none ↔
      env.pipInstall p = SubprocOutcome.fileNotFound) ∧
    (∀ env p m, installAttempts (try_install env p m).1 = 1) ∧
    (∀ env m, m ∉ env.stdlib → env.findSpec m = false →
      env.pipInstall (resolve_package m) = SubprocOutcome.fileNotFound →
      (processModule env m).2 = Flow.exited 1) := by
  refine ⟨?_, ?_, ?_, ?_, ?_, ?_⟩
  · intro env p m h; simp [try_install, h]
  · intro env p m h; simp [try_install, h]
  · intro env p m h; simp [try_install, h]
  · intro env p m
    cases h : env.pipInstall p <;> simp [try_install, h]
  · intro env p m
    cases h : env.pipInstall p <;>
      simp [try_install, h, installAttempts, isInstallAttemptEvent]
  · intro env m hs hf h
    simp [processModule, hs, hf, try_install, h]

/-- Witness for C7 on a concrete environment. -/
theorem installer_fatal_taxonomy_w :
    try_install envFatalW "requests" "requests" = ([Event.pipMissingGuidance], none) ∧
    (processModule envFatalW "requests").2 = Flow.exited 1 :=
  ⟨installer_fatal_taxonomy.1 envFatalW "requests" "requests" (by decide),
   installer_fatal_taxonomy.2.2.2.2.2 envFatalW "requests" (by decide) (by decide)
     (by decide)⟩

theorem toLower_ne_upperY (c : Char) : Char.toLower c ≠ 'Y' := by
  intro hc
  simp only [Char.toLower] at hc
  split at hc
  case isTrue h =>
    obtain ⟨h1, h2⟩ := h
    generalize hg : c.toNat = k at h1 h2 hc
    interval_cases k <;> exact absurd hc (by decide)
  case isFalse h =>
    subst hc
    exact h (by decide)

theorem pyLower_ne_upperY (s : String) : pyLower s ≠ "Y" := by
  intro hs
  have h2 : s.data.map Char.toLower = ['Y'] := congrArg String.data hs
  cases hd : s.data with
  | nil => rw [hd] at h2; simp at h2
  | cons c rest =>
    rw [hd] at h2
    simp only [List.map_cons, List.cons.injEq] at h2
    exact toLower_ne_upperY c h2.1

/-- C9: the confirmation prompt accepts exactly the inputs whose stripped
and lowered form is the single letter y (the comparison with capital Y in
the source is dead after lowering); every other input, the empty one
included, leads to the alternative being skipped, and acceptance leads to
the install of the suggested package. -/
theorem prompt_accept_policy :
    (∀ s, promptAccepts s = true ↔ pyLower (pyStrip s) = "y") ∧
    promptAccepts "" = false ∧
    (∀ env m q t, env.pipDryRun q = SubprocOutcome.ok →
      promptAccepts env.userInput = false →
      promptStage env m (some q) (some t) =
        ([Event.aiSuggests t, Event.promptShown q m, Event.skippedAlternative m],
          Flow.normal)) ∧
    (∀ env m q t, env.pipDryRun q = SubprocOutcome.ok →
      promptAccepts env.userInput = true →
      promptStage env m (some q) (some t) =
        ([Event.aiSuggests t, Event.promptShown q m] ++ (try_install env q m).1,
          if (try_install env q m).2 = none then Flow.exited 1 else Flow.normal)) := by
  refine ⟨?_, by decide, ?_, ?_⟩
  · intro s
    constructor
    · intro h
      rcases (by simpa [promptAccepts] using h : pyLower (pyStrip s) = "y" ∨
          pyLower (pyStrip s) = "Y") with h1 | h1
      · exact h1
      · exact absurd h1 (pyLower_ne_upperY (pyStrip s))
    · intro h
      simp [promptAccepts, h]
  · intro env m q t hq hp
    simp [promptStage, dryRunCheck, is_real_pypi_package, hq, hp]
  · intro env m q t hq hp
    cases h2 : (try_install env q m).2 <;>
      simp [promptStage, dryRunCheck, is_real_pypi_package, hq, hp, h2]

/-- Witness for C9: the iff at a capitalised input with surrounding blanks,
and the skip path on a declined prompt. -/
theorem prompt_accept_policy_w :
    (promptAccepts " Y " = true ↔ pyLower (pyStrip " Y ") = "y") ∧
    promptStage envPromptW "mod" (some "pkg") (some "text") =
      ([Event.aiSuggests "text", Event.promptShown "pkg" "mod",
        Event.skippedAlternative "mod"], Flow.normal) :=
  ⟨prompt_accept_policy.1 " Y ",
   prompt_accept_policy.2.2.1 envPromptW "mod" "pkg" "text" (by decide) (by decide)⟩

/-- C10: the dry-run existence check turns a successful dry run into true,
a CalledProcessError into false, and lets a FileNotFoundError propagate as
an uncaught exception: it is neither swallowed as a false result nor routed
to the graceful fatal path of the installer. -/
theorem dryrun_exception_routing :
    is_real_pypi_package SubprocOutcome.ok = Except.ok true ∧
    is_real_pypi_package SubprocOutcome.calledProcessError = Except.ok false ∧
    is_real_pypi_package SubprocOutcome.fileNotFound =
      Except.error SubprocOutcome.fileNotFound ∧
    (∀ b, is_real_pypi_package SubprocOutcome.fileNotFound ≠ Except.ok b) := by
  refine ⟨rfl, rfl, rfl, ?_⟩
  intro b h
  exact Except.noConfusion h

theorem termWarnCount_nil (m : String) : termWarnCount m [] = 0 := rfl

theorem termWarnCount_cons (m : String) (e : Event) (tr : List Event) :
    termWarnCount m (e :: tr) =
      (if isTermWarnFor m e then 1 else 0) + termWarnCount m tr := by
  by_cases h : isTermWarnFor m e <;>
    simp [termWarnCount, List.filter_cons, h, Nat.add_comm]

theorem termWarnCount_append (m : String) (a b : List Event) :
    termWarnCount m (a ++ b) = termWarnCount m a + termWarnCount m b := by
  simp [termWarnCount, List.filter_append]

theorem try_install_snd_ne_none (env : Env) (p m : String)
    (hI : env.pipInstall p ≠ SubprocOutcome.fileNotFound) :
    (try_install env p m).2 ≠ none := by
  cases h : env.pipInstall p with
  | ok => simp [try_install, h]
  | calledProcessError => simp [try_install, h]
  | fileNotFound => exact absurd h hI

theorem flow_promptStage (env : Env) (m : String) (s t : Option String)
    (hI : ∀ p, env.pipInstall p ≠ SubprocOutcome.fileNotFound)
    (hD : ∀ p, env.pipDryRun p ≠ SubprocOutcome.fileNotFound) :
    (promptStage env m s t).2 = Flow.normal := by
  cases s with
  | none => simp [promptStage]
  | some q =>
    cases h : env.pipDryRun q with
    | fileNotFound => exact absurd h (hD q)
    | calledProcessError => simp [promptStage, dryRunCheck, is_real_pypi_package, h]
    | ok =>
      by_cases hp : promptAccepts env.userInput
      · cases h2 : (try_install env q m).2 with
        | none => exact absurd h2 (try_install_snd_ne_none env q m (hI q))
        | some b => simp [promptStage, dryRunCheck, is_real_pypi_package, h, hp, h2]
      · simp [promptStage, dryRunCheck, is_real_pypi_package, h, hp]

theorem flow_candidateStage (env : Env) (m : String) (s t : Option String)
    (hI : ∀ p, env.pipInstall p ≠ SubprocOutcome.fileNotFound)
    (hD : ∀ p, env.pipDryRun p ≠ SubprocOutcome.fileNotFound) :
    (candidateStage env m s t).2 = Flow.normal := by
  cases s with
  | none => simp [candidateStage]
  | some p =>
    cases h : env.pipDryRun p with
    | fileNotFound => exact absurd h (hD p)
    | calledProcessError => simp [candidateStage, dryRunCheck, is_real_pypi_package, h]
    | ok =>
      cases h2 : (try_install env p m).2 with
      | none => exact absurd h2 (try_install_snd_ne_none env p m (hI p))
      | some b =>
        cases b <;>
          simp [candidateStage, dryRunCheck, is_real_pypi_package, h, h2,
            flow_promptStage env m _ _ hI hD]

theorem flow_fallbackStage (env : Env) (m : String)
    (hI : ∀ p, env.pipInstall p ≠ SubprocOutcome.fileNotFound)
    (hD : ∀ p, env.pipDryRun p ≠ SubprocOutcome.fileNotFound) :
    (fallbackStage env m).2 = Flow.normal := by
  cases hq : env.aiResponse m ctxInitial with
  | none => simp [fallbackStage, ask_ai_for_package, hq]
  | some t =>
    cases he : extractPkg (pyStrip t) with
    | none =>
      simp [fallbackStage, ask_ai_for_package, hq, he,
        flow_candidateStage env m _ _ hI hD]
    | some p =>
      cases h : env.pipDryRun p with
      | fileNotFound => exact absurd h (hD p)
      | ok =>
        simp [fallbackStage, ask_ai_for_package, hq, he, dryRunCheck,
          is_real_pypi_package, h, flow_candidateStage env m _ _ hI hD]
      | calledProcessError =>
        simp [fallbackStage, ask_ai_for_package, hq, he, dryRunCheck,
          is_real_pypi_package, h, flow_candidateStage env m _ _ hI hD]

theorem flow_processModule (env : Env) (m : String)
    (hI : ∀ p, env.pipInstall p ≠ SubprocOutcome.fileNotFound)
    (hD : ∀ p, env.pipDryRun p ≠ SubprocOutcome.fileNotFound) :
    (processModule env m).2 = Flow.normal := by
  by_cases hs : m ∈ env.stdlib
  · simp [processModule, hs]
  · by_cases hf : env.findSpec m
    · simp [processModule, hs, hf]
    · cases h2 : (try_install env (resolve_package m) m).2 with
      | none => exact absurd h2 (try_install_snd_ne_none env _ m (hI _))
      | some b =>
        cases b <;>
          simp [processModule, hs, hf, h2, flow_fallbackStage env m hI hD]

/-- Counterexample to C4 as stated: in this environment the module foo
fails on the direct attempt and the single fallback reply contains no
extractable candidate, so every resolution path fails, yet the loop emits no
terminating warning line naming foo at all (the claim demands exactly one);
it falls through to the next module silently after the query. -/
theorem failed_module_warning_cex :
    processModule envSilentFail "foo" =
      ([Event.installingMsg "foo" "foo", Event.installFailed "foo" "foo",
        Event.aiQuery "foo" ctxInitial], Flow.normal) ∧
    ((processModule envSilentFail "foo").1.all fun e => !isInstallOkEvent e) = true ∧
    termWarnCount "foo" (processModule envSilentFail "foo").1 = 0 := by
  refine ⟨by decide, by decide, by decide⟩

/-- C4 (amended): a module for which every resolution path fails leaves the
process flow normal (exit code 0) and never halts processing of the
remaining modules, whose traces are appended unchanged; but the failure is
not always announced: only the paths that reach the final validated
candidate print exactly one terminating warning naming the module (shown
here for the decline path), while the paths that lose the candidate earlier
print none. -/
theorem failed_module_exit_and_continue :
    (∀ env ms, (∀ p, env.pipInstall p ≠ SubprocOutcome.fileNotFound) →
      (∀ p, env.pipDryRun p ≠ SubprocOutcome.fileNotFound) →
      (install_missing env ms).2 = Flow.normal) ∧
    (∀ env m rest, (∀ p, env.pipInstall p ≠ SubprocOutcome.fileNotFound) →
      (∀ p, env.pipDryRun p ≠ SubprocOutcome.fileNotFound) →
      (install_missing env (m :: rest)).1 =
        (processModule env m).1 ++ (install_missing env rest).1) ∧
    (∀ env m t p t2 q, m ∉ env.stdlib → env.findSpec m = false →
      env.pipInstall (resolve_package m) = SubprocOutcome.calledProcessError →
      env.aiResponse m ctxInitial = some t →
      extractPkg (pyStrip t) = some p →
      env.pipDryRun p = SubprocOutcome.ok →
      env.pipInstall p = SubprocOutcome.calledProcessError →
      env.aiResponse m (ctxExistsButFails p) = some t2 →
      extractPkg (pyStrip t2) = some q →
      env.pipDryRun q = SubprocOutcome.ok →
      promptAccepts env.userInput = false →
      termWarnCount m (processModule env m).1 = 1) := by
  refine ⟨?_, ?_, ?_⟩
  · intro env ms hI hD
    induction ms with
    | nil => rfl
    | cons m rest ih =>
      simp [install_missing, flow_processModule env m hI hD, ih]
  · intro env m rest hI hD
    simp [install_missing, flow_processModule env m hI hD]
  · intro env m t p t2 q hs hf h1 ha he hd h2 ha2 he2 hd2 hu
    simp [processModule, hs, hf, try_install, h1, fallbackStage, ask_ai_for_package,
      ha, he, dryRunCheck, is_real_pypi_package, hd, candidateStage, h2, ha2, he2,
      promptStage, hd2, hu, termWarnCount_cons, termWarnCount_append,
      termWarnCount_nil, isTermWarnFor]

/-- Witness for C4 on concrete environments: no fatal outcome anywhere, the
silent-fail module does not stop the run, and the decline path prints its
single terminating warning. -/
theorem failed_module_exit_and_continue_w :
    (install_missing envSilentFail ["foo", "bar"]).2 = Flow.normal ∧
    (install_missing envSilentFail ["foo", "bar"]).1 =
      (processModule envSilentFail "foo").1 ++
        (install_missing envSilentFail ["bar"]).1 ∧
    termWarnCount "mod" (processModule envDeclineW "mod").1 = 1 :=
  ⟨failed_module_exit_and_continue.1 envSilentFail ["foo", "bar"]
      (fun p => by simp [envSilentFail]) (fun p => by simp [envSilentFail]),
   failed_module_exit_and_continue.2.1 envSilentFail "foo" ["bar"]
      (fun p => by simp [envSilentFail]) (fun p => by simp [envSilentFail]),
   failed_module_exit_and_continue.2.2 envDeclineW "mod" "pip install pkgb" "pkgb"
      "pip install pkgc" "pkgc" (by decide) (by decide) (by decide) (by decide)
      (by decide) (by decide) (by decide) (by decide) (by decide) (by decide)
      (by decide)⟩

/-- Counterexample to C1 as stated: in this environment the validated
candidate altpkg is an alternate name for the original failed resolution of
foo (extracted from the initial fallback reply), and the claim says the user
is prompted before it is installed; but the trace installs it at position 3
while the first prompt only appears at position 5, after the install. -/
theorem prompt_asymmetry_cex :
    (processModule envAutoInstall "foo").1 =
      [Event.installingMsg "foo" "foo", Event.installFailed "foo" "foo",
       Event.aiQuery "foo" ctxInitial, Event.installedOk "altpkg",
       Event.aiSuggests "pip install altpkg", Event.promptShown "altpkg" "foo",
       Event.skippedAlternative "foo"] ∧
    List.findIdx? isInstallOkEvent (processModule envAutoInstall "foo").1 = some 3 ∧
    List.findIdx? isPromptEvent (processModule envAutoInstall "foo").1 = some 5 := by
  refine ⟨by decide, by decide, by decide⟩

/-- C1 (amended): the asymmetry runs the other way round: a validated
candidate that is the alternate name for the module's original failed
resolution (extracted from the initial reply) is installed immediately and
without prompting, the prompt being shown only afterwards; a replacement
suggested because an existing real candidate failed to install is installed
only after the user confirms at the prompt. -/
theorem prompt_asymmetry_amended :
    (∀ env m t p, m ∉ env.stdlib → env.findSpec m = false →
      env.pipInstall (resolve_package m) = SubprocOutcome.calledProcessError →
      env.aiResponse m ctxInitial = some t →
      extractPkg (pyStrip t) = some p →
      env.pipDryRun p = SubprocOutcome.ok →
      env.pipInstall p = SubprocOutcome.ok →
      promptAccepts env.userInput = false →
      (processModule env m).1 =
        [Event.installingMsg (resolve_package m) m,
         Event.installFailed (resolve_package m) m,
         Event.aiQuery m ctxInitial, Event.installedOk p,
         Event.aiSuggests (pyStrip t), Event.promptShown p m,
         Event.skippedAlternative m]) ∧
    (∀ env m t p t2 q, m ∉ env.stdlib → env.findSpec m = false →
      env.pipInstall (resolve_package m) = SubprocOutcome.calledProcessError →
      env.aiResponse m ctxInitial = some t →
      extractPkg (pyStrip t) = some p →
      env.pipDryRun p = SubprocOutcome.ok →
      env.pipInstall p = SubprocOutcome.calledProcessError →
      env.aiResponse m (ctxExistsButFails p) = some t2 →
      extractPkg (pyStrip t2) = some q →
      env.pipDryRun q = SubprocOutcome.ok →
      promptAccepts env.userInput = true →
      env.pipInstall q = SubprocOutcome.ok →
      (processModule env m).1 =
        [Event.installingMsg (resolve_package m) m,
         Event.installFailed (resolve_package m) m,
         Event.aiQuery m ctxInitial, Event.installFailed p m,
         Event.existsButFails p, Event.aiQuery m (ctxExistsButFails p),
         Event.aiSuggests (pyStrip t2), Event.promptShown q m,
         Event.installedOk q]) := by
  constructor
  · intro env m t p hs hf h1 ha he hd h2 hu
    simp [processModule, hs, hf, try_install, h1, fallbackStage, ask_ai_for_package,
      ha, he, dryRunCheck, is_real_pypi_package, hd, candidateStage, h2,
      promptStage, hu]
  · intro env m t p t2 q hs hf h1 ha he hd h2 ha2 he2 hd2 hu h3
    simp [processModule, hs, hf, try_install, h1, fallbackStage, ask_ai_for_package,
      ha, he, dryRunCheck, is_real_pypi_package, hd, candidateStage, h2, ha2, he2,
      promptStage, hd2, hu, h3]

/-- Witness for C1 (amended) on the two concrete environments: the
unprompted install of the alternate name, and the prompted install of the
exists-but-fails replacement. -/
theorem prompt_asymmetry_amended_w :
    (processModule envAutoInstall "foo").1 =
      [Event.installingMsg "foo" "foo", Event.installFailed "foo" "foo",
       Event.aiQuery "foo" ctxInitial, Event.installedOk "altpkg",
       Event.aiSuggests (pyStrip "pip install altpkg"),
       Event.promptShown "altpkg" "foo", Event.skippedAlternative "foo"] ∧
    (processModule envPromptedRepl "foo").1 =
      [Event.installingMsg "foo" "foo", Event.installFailed "foo" "foo",
       Event.aiQuery "foo" ctxInitial, Event.installFailed "altpkg" "foo",
       Event.existsButFails "altpkg", Event.aiQuery "foo" (ctxExistsButFails "altpkg"),
       Event.aiSuggests (pyStrip "pip install newpkg"),
       Event.promptShown "newpkg" "foo", Event.installedOk "newpkg"] :=
  ⟨prompt_asymmetry_amended.1 envAutoInstall "foo" "pip install altpkg" "altpkg"
      (by decide) (by decide) (by decide) (by decide) (by decide) (by decide)
      (by decide) (by decide),
   prompt_asymmetry_amended.2 envPromptedRepl "foo" "pip install altpkg" "altpkg"
      "pip install newpkg" "newpkg" (by decide) (by decide) (by decide) (by decide)
      (by decide) (by decide) (by decide) (by decide) (by decide) (by decide)
      (by decide) (by decide)⟩

/-- Counterexample to C8 as stated: a from-import of the shape from dot-pkg
(from .pkg, names Y) reaches the extractor as a node whose module attribute
is the nonempty string pkg with level 1; the extractor ignores the level and
does add pkg to the import set. -/
theorem relative_import_cex :
    extract_imports [PyStmt.importFrom (some "pkg") 1] = ["pkg"] ∧
    extract_imports [PyStmt.importFrom (some "pkg") 1] ≠ [] := by
  refine ⟨by decide, by decide⟩

/-- C8 (amended): a relative import with no module part (from . import X,
module attribute None) adds nothing; a relative import with a module part
(from .pkg import Y, module attribute pkg with positive level) adds the
root of that module part, because the level attribute is never consulted,
and therefore does trigger classification and installation. -/
theorem relative_import_amended :
    (∀ lvl, extract_imports [PyStmt.importFrom none lvl] = []) ∧
    (∀ s lvl, s ≠ "" → extract_imports [PyStmt.importFrom (some s) lvl] = [rootOf s]) := by
  constructor
  · intro lvl; simp [extract_imports]
  · intro s lvl h; simp [extract_imports, h]

/-- Witness for C8 (amended) at concrete statements. -/
theorem relative_import_amended_w :
    extract_imports [PyStmt.importFrom none 1] = [] ∧
    "p.q" ≠ "" ∧
    extract_imports [PyStmt.importFrom (some "p.q") 2] = [rootOf "p.q"] :=
  ⟨relative_import_amended.1 1, by decide,
   relative_import_amended.2 "p.q" 2 (by decide)⟩

end Autopip
